import Mathlib

/-!
Verification of the libavfilter adapter `vf_tmblock.c` (filter "tmblock").

The file shallowly embeds the filter's code: pure helpers become Lean
functions, the per-event callback `process_frame` becomes a function from an
environment (the frames of the two synchronized streams and the outcomes of
the external calls) to a result record carrying the return value, the trace
of observable actions (dispatcher invocation, frame forwarding, frame
releases) and the output buffer allocated for the event.

External collaborators that are not part of the repository source
(`framesync.h`, `bufferqueue.h`, `libavutil`, `tmblock.h`) are modelled at
their documented interface; each such definition carries a doc comment
saying so.
-/

/-! ## Constants from the FFmpeg headers -/

/-- Pixel format codes from `libavutil/pixfmt.h`. `AV_PIX_FMT_YUV420P = 0`. -/
def AV_PIX_FMT_YUV420P : Int := 0

/-- Pixel format code of packed 8-bit RGB, `AV_PIX_FMT_RGB24 = 2`. -/
def AV_PIX_FMT_RGB24 : Int := 2

/-- Pixel format code of 8-bit grayscale, `AV_PIX_FMT_GRAY8 = 8`. -/
def AV_PIX_FMT_GRAY8 : Int := 8

/-- Pixel format code of packed 8-bit RGBA, `AV_PIX_FMT_RGBA = 26`. -/
def AV_PIX_FMT_RGBA : Int := 26

/-- `AVERROR(ENOMEM)`: negated POSIX `ENOMEM` (12). -/
def AVERROR_ENOMEM : Int := -12

/-- `AV_NOPTS_VALUE = INT64_MIN`, the timestamp of a frame with no timestamp
set; a freshly allocated frame carries it before properties are copied. -/
def AV_NOPTS_VALUE : Int := -9223372036854775808

/-- Modelled from the spec: `tmblock.h` is external; `TM_RGB` is the
descriptor tag for packed RGB. Only its distinctness from `TM_RGBA` and
from `-1` matters to the filter code. -/
def TM_RGB : Int := 0

/-- Modelled from the spec: `tmblock.h` is external; `TM_RGBA` is the
descriptor tag for packed RGBA. -/
def TM_RGBA : Int := 1

/-- Modelled from the spec: `tmblock.h` is external; `TM_PACKED` is the
layout argument the filter always passes to the bound operation. -/
def TM_PACKED : Int := 0

/-! ## Data model -/

/-- The fields of `AVFrame` the filter reads or writes. `data` models the
plane pointer `data[0]` as an abstract address; `linesize` is
`linesize[0]`; `sar` is `sample_aspect_ratio` (a rational, num/den). -/
structure AVFrame where
  width : Int
  height : Int
  linesize : Int
  format : Int
  data : Nat
  pts : Int
  sar : Int × Int
  deriving DecidableEq, Repr

/-- The processing library's picture descriptor (`TM_Picture` from
`tmblock.h`): the five fields `copy_AVFrame_to_TM_Picture` fills. -/
structure TM_Picture where
  height : Int
  width : Int
  linesize : Int
  mode : Int
  ptr : Nat
  deriving DecidableEq, Repr

/-- The fields of `AVFilterLink` the filter reads or writes:
geometry, negotiated format, and the timing metadata `config_output`
copies through (`time_base`, `sample_aspect_ratio` as `sar`,
`frame_rate` as rationals num/den). -/
structure AVFilterLink where
  w : Int
  h : Int
  format : Int
  time_base : Int × Int
  sar : Int × Int
  frame_rate : Int × Int
  deriving DecidableEq, Repr

/-- The three external watermark operations of `libtmblock`
(`TM_embed`, `TM_pre`, `TM_post`); the filter treats them as opaque
function pointers, so they are modelled by their identity. -/
inductive TMFunc
  | TM_embed
  | TM_pre
  | TM_post
  deriving DecidableEq, Repr

/-- `FUNC_EMBED` from the `TMFunctionType` enum (first enumerator, 0). -/
def FUNC_EMBED : Int := 0

/-- `FUNC_PRE` from the `TMFunctionType` enum (second enumerator, 1). -/
def FUNC_PRE : Int := 1

/-- `FUNC_POST` from the `TMFunctionType` enum (third enumerator, 2). -/
def FUNC_POST : Int := 2

/-- `NB_FUNC` from the `TMFunctionType` enum (fourth enumerator, 3). -/
def NB_FUNC : Int := 3

/-- Default of the "func" option in `tmblock_options`: `{.i64=FUNC_EMBED}`. -/
def func_option_default : Int := FUNC_EMBED

/-- The filter's private context `TMBlockContext`: the two offsets, the
three scratch picture descriptors, the two pending-frame queues, the
selector, the bound function pointer (`none` = NULL, as in the
zero-initialized private data), and whether `fs.on_event` has been set to
`process_frame` (the only value the code ever assigns to it). -/
structure TMBlockContext where
  offset_x : Int
  offset_y : Int
  input : TM_Picture
  logo : TM_Picture
  output : TM_Picture
  queue_input : List AVFrame
  queue_logo : List AVFrame
  func_type : Int
  func : Option TMFunc
  fs_on_event : Bool
  deriving DecidableEq, Repr

/-- An all-zero picture descriptor, the state of the scratch descriptors in
the zero-allocated private context before the first event. -/
def zero_pic : TM_Picture :=
  { height := 0, width := 0, linesize := 0, mode := 0, ptr := 0 }

/-- The private context right after allocation and option parsing: the AVFilter
framework zero-allocates `priv` (`priv_size = sizeof(TMBlockContext)`),
then option parsing stores the offsets and the selector; queues are empty,
no function is bound, `fs.on_event` is NULL. -/
def fresh_context (ox oy ft : Int) : TMBlockContext :=
  { offset_x := ox, offset_y := oy,
    input := zero_pic, logo := zero_pic, output := zero_pic,
    queue_input := [], queue_logo := [],
    func_type := ft, func := none, fs_on_event := false }

/-! ## The environment of one synchronization event -/

/-- One synchronization event's environment: the frame queued on each of the
two streams at the alignment point, and the outcomes of the external calls
the event makes (buffer allocation, the bound operation's return value,
`ff_filter_frame`'s return value). `fresh_ptr` and `fresh_linesize` are the
plane address and stride the allocator picks for the new buffer. -/
structure Env where
  frame0 : AVFrame
  frame1 : AVFrame
  alloc_ok : Bool
  fresh_ptr : Nat
  fresh_linesize : Int
  op_ret : Int
  filter_ret : Int
  deriving DecidableEq, Repr

/-- Modelled from the spec: `ff_framesync_get_frame(&fs, in, &buf, 0)` from
`framesync.h` (not under src/) yields the frame of stream `in` of the
current aligned pair, without transferring ownership (flag 0), and cannot
fail once the event has fired. -/
def framesync_get_frame (env : Env) (stream : Nat) : AVFrame :=
  if stream = 0 then env.frame0 else env.frame1

/-- Modelled from the spec: `ff_get_video_buffer(link, w, h)` (not under
src/) allocates a fresh frame of the requested geometry with the link's
negotiated format and default (unset) properties, or fails with NULL. -/
def ff_get_video_buffer (link : AVFilterLink) (w h : Int) (env : Env) :
    Option AVFrame :=
  if env.alloc_ok then
    some { width := w, height := h, linesize := env.fresh_linesize,
           format := link.format, data := env.fresh_ptr,
           pts := AV_NOPTS_VALUE, sar := (0, 1) }
  else none

/-- Modelled from the spec: `av_frame_copy_props(dst, src)` from `libavutil`
(not under src/) copies the metadata of `src` (timestamp,
sample-aspect-ratio) onto `dst` without touching geometry, format, or the
pixel data pointer. -/
def av_frame_copy_props (dst src : AVFrame) : AVFrame :=
  { dst with pts := src.pts, sar := src.sar }

/-! ## The Picture Bridge: copy_AVFrame_to_TM_Picture -/

/-- `copy_AVFrame_to_TM_Picture` (vf_tmblock.c lines 81-88). The C source
computes the mode with
`frame->format == AV_PIX_FMT_RGBA ? TM_RGBA : AV_PIX_FMT_RGB24 ? TM_RGB : -1`;
by C precedence this parses as
`(format == RGBA) ? TM_RGBA : (AV_PIX_FMT_RGB24 ? TM_RGB : -1)`, whose
second condition is the nonzero constant `AV_PIX_FMT_RGB24` itself, kept
here as the truthiness test of that constant. -/
def copy_AVFrame_to_TM_Picture (frame : AVFrame) : TM_Picture :=
  { height := frame.height,
    width := frame.width,
    linesize := frame.linesize,
    mode := if frame.format = AV_PIX_FMT_RGBA then TM_RGBA
            else if AV_PIX_FMT_RGB24 ≠ 0 then TM_RGB
            else -1,
    ptr := frame.data }

/-- The `assert(picture->mode != -1)` on line 86, as the proposition it
checks. -/
def copy_mode_assert (frame : AVFrame) : Prop :=
  (copy_AVFrame_to_TM_Picture frame).mode ≠ -1

/-! ## Observable actions of one event -/

/-- The role of a frame pointer variable inside `process_frame`. -/
inductive BufRole
  | inputB
  | logoB
  | outputB
  deriving DecidableEq, Repr

/-- One observable action of a processing event: `dispatch` is the call to
the bound operation through `draw_frame` (recording the bound function, the
three descriptors, the offsets and the layout argument); `forward` is
`ff_filter_frame`, which transfers ownership of the frame to the downstream
consumer; `release` is `av_frame_free` on a non-NULL pointer of the given
role (`av_frame_free` on NULL is a no-op and is not recorded). -/
inductive Ev
  | dispatch (f : Option TMFunc) (inp lgo : TM_Picture) (ox oy : Int)
      (outp : TM_Picture) (layout : Int)
  | forward (frame : AVFrame)
  | release (r : BufRole)
  deriving DecidableEq, Repr

/-- Number of dispatcher invocations in a trace. -/
def countDispatch (t : List Ev) : Nat :=
  t.countP fun e => match e with
    | Ev.dispatch _ _ _ _ _ _ _ => true
    | _ => false

/-- Number of `ff_filter_frame` ownership transfers in a trace. -/
def countForward (t : List Ev) : Nat :=
  t.countP fun e => match e with
    | Ev.forward _ => true
    | _ => false

/-- Number of `av_frame_free` releases of the given buffer role in a trace. -/
def countRelease (r : BufRole) (t : List Ev) : Nat :=
  t.countP fun e => match e with
    | Ev.release s => r = s
    | _ => false

/-- How many times a trace relinquishes the output buffer: forwarding
transfers its ownership downstream, and each `release` of the output role
frees it; a correct event relinquishes it exactly once. -/
def outputRelinquishes (t : List Ev) : Nat :=
  countForward t + countRelease BufRole.outputB t

/-- The logo-descriptor arguments of the dispatcher invocations in a trace,
in order. -/
def dispatchLogoArgs (t : List Ev) : List TM_Picture :=
  t.filterMap fun e => match e with
    | Ev.dispatch _ _ lgo _ _ _ _ => some lgo
    | _ => none

/-- The input-descriptor arguments of the dispatcher invocations in a trace,
in order. -/
def dispatchInputArgs (t : List Ev) : List TM_Picture :=
  t.filterMap fun e => match e with
    | Ev.dispatch _ inp _ _ _ _ _ => some inp
    | _ => none

/-- The offset arguments of the dispatcher invocations in a trace. -/
def dispatchOffsets (t : List Ev) : List (Int × Int) :=
  t.filterMap fun e => match e with
    | Ev.dispatch _ _ _ ox oy _ _ => some (ox, oy)
    | _ => none

/-! ## draw_frame and process_frame -/

/-- Result of `draw_frame`: the context with the three scratch descriptors
rewritten, the operation's return value, and the dispatch action. -/
structure DrawResult where
  tm : TMBlockContext
  ret : Int
  ev : Ev
  deriving Repr

/-- `draw_frame` (vf_tmblock.c lines 90-99): fills the context's three
scratch descriptors from the three frames via the Picture Bridge, then
calls the bound function with the input and logo descriptors, the two
offsets, the output descriptor and `TM_PACKED`. The external function's
return value is supplied by the environment (`env.op_ret`). -/
def draw_frame (tm : TMBlockContext) (env : Env)
    (input_buf logo_buf output_buf : AVFrame) : DrawResult :=
  let tm2 : TMBlockContext :=
    { tm with input := copy_AVFrame_to_TM_Picture input_buf,
              logo := copy_AVFrame_to_TM_Picture logo_buf,
              output := copy_AVFrame_to_TM_Picture output_buf }
  { tm := tm2, ret := env.op_ret,
    ev := Ev.dispatch tm2.func tm2.input tm2.logo tm2.offset_x tm2.offset_y
            tm2.output TM_PACKED }

/-- Result of one `process_frame` invocation: the context after the event,
the return value, the trace of observable actions, and the output buffer
allocated for the event (`none` when allocation failed). -/
structure ProcResult where
  tm : TMBlockContext
  ret : Int
  trace : List Ev
  output_buf : Option AVFrame
  deriving Repr

/-- `process_frame` (vf_tmblock.c lines 101-134), the framesync `on_event`
callback. Both `ff_framesync_get_frame` calls in the source pass stream
index 0 (lines 109-110), which this model preserves. On allocation failure
the code jumps to `out:` where `av_frame_free(&output_buf)` is a NULL no-op
and the input and logo pointers are freed. If `draw_frame` returns nonzero
the code jumps to `out:` without forwarding. Otherwise `ff_filter_frame`
forwards the output buffer (transferring its ownership downstream) and,
whatever it returns, control reaches `out:`, which frees the output, input
and logo pointers and returns `ret`. -/
def process_frame (tm : TMBlockContext) (output_link : AVFilterLink)
    (env : Env) : ProcResult :=
  let input_buf := framesync_get_frame env 0
  let logo_buf := framesync_get_frame env 0
  match ff_get_video_buffer output_link output_link.w output_link.h env with
  | none =>
      { tm := tm, ret := AVERROR_ENOMEM,
        trace := [Ev.release BufRole.inputB, Ev.release BufRole.logoB],
        output_buf := none }
  | some buf =>
      let output_buf := av_frame_copy_props buf input_buf
      let d := draw_frame tm env input_buf logo_buf output_buf
      if d.ret ≠ 0 then
        { tm := d.tm, ret := d.ret,
          trace := [d.ev, Ev.release BufRole.outputB,
                    Ev.release BufRole.inputB, Ev.release BufRole.logoB],
          output_buf := some output_buf }
      else
        { tm := d.tm, ret := env.filter_ret,
          trace := [d.ev, Ev.forward output_buf, Ev.release BufRole.outputB,
                    Ev.release BufRole.inputB, Ev.release BufRole.logoB],
          output_buf := some output_buf }

/-! ## init, uninit, config_output -/

/-- `init` (vf_tmblock.c lines 136-154): the switch on `func_type` binds
`TM_embed`, `TM_post` or `TM_pre`; any other value returns 1 immediately,
leaving the function pointer and `fs.on_event` untouched. On a recognized
selector, `fs.on_event` is set to `process_frame` and the return value is
that of `ff_framesync_configure` (external, supplied as `fsret`). -/
def init (tm : TMBlockContext) (fsret : Int) : TMBlockContext × Int :=
  if tm.func_type = FUNC_EMBED then
    ({ tm with func := some TMFunc.TM_embed, fs_on_event := true }, fsret)
  else if tm.func_type = FUNC_POST then
    ({ tm with func := some TMFunc.TM_post, fs_on_event := true }, fsret)
  else if tm.func_type = FUNC_PRE then
    ({ tm with func := some TMFunc.TM_pre, fs_on_event := true }, fsret)
  else (tm, 1)

/-- Modelled from the spec: `ff_bufqueue_discard_all` from `bufferqueue.h`
(not under src/) releases every queued frame and leaves the queue empty.
Returns the emptied queue and the list of frames released. -/
def ff_bufqueue_discard_all (q : List AVFrame) : List AVFrame × List AVFrame :=
  ([], q)

/-- `uninit` (vf_tmblock.c lines 157-161): discards both pending-frame
queues. Returns the context afterwards and the frames released. -/
def uninit (tm : TMBlockContext) : TMBlockContext × List AVFrame :=
  let di := ff_bufqueue_discard_all tm.queue_input
  let dl := ff_bufqueue_discard_all tm.queue_logo
  ({ tm with queue_input := di.1, queue_logo := dl.1 }, di.2 ++ dl.2)

/-- `config_output` (vf_tmblock.c lines 174-183): copies the input link's
geometry, time base, sample aspect ratio and frame rate onto the output
link and returns 0. -/
def config_output (input_link output_link : AVFilterLink) :
    AVFilterLink × Int :=
  ({ output_link with
      w := input_link.w, h := input_link.h,
      time_base := input_link.time_base,
      sar := input_link.sar,
      frame_rate := input_link.frame_rate }, 0)

/-! ## The framesync driver and the filter's reachable states -/

/-- Modelled from the spec: the synchronizer (`framesync.h`, not under src/)
invokes the configured `on_event` callback once per synchronization event;
when no callback was registered (init failed before setting it), no event
is ever processed. Returns the per-event results in order. -/
def framesync_run (ol : AVFilterLink) :
    TMBlockContext → List Env → List (Int × List Ev)
  | _, [] => []
  | tm, e :: es =>
      if tm.fs_on_event then
        let r := process_frame tm ol e
        (r.ret, r.trace) :: framesync_run ol r.tm es
      else []

/-- The operations the AVFilter framework can apply to the filter's private
context over its lifetime: initialization, a synchronization event, and
teardown. -/
inductive FilterOp
  | opInit (fsret : Int)
  | opEvent (ol : AVFilterLink) (env : Env)
  | opUninit
  deriving Repr

/-- One lifetime step of the filter context. -/
def step (tm : TMBlockContext) : FilterOp → TMBlockContext
  | FilterOp.opInit fsret => (init tm fsret).1
  | FilterOp.opEvent ol env => (process_frame tm ol env).tm
  | FilterOp.opUninit => (uninit tm).1

/-- A whole lifetime: the context reached after applying a sequence of
operations. -/
def runOps (tm : TMBlockContext) (ops : List FilterOp) : TMBlockContext :=
  ops.foldl step tm

/-! ## Concrete fixtures (the spec's concrete scenario) -/

/-- The 4×4 RGB24 frame delivered by the input stream (stream 0) at
timestamp 0, plane data at address 100. -/
def frame_in : AVFrame :=
  { width := 4, height := 4, linesize := 12, format := AV_PIX_FMT_RGB24,
    data := 100, pts := 0, sar := (1, 1) }

/-- The 2×2 RGBA frame delivered by the logo stream (stream 1) at
timestamp 0, plane data at address 200. -/
def frame_logo : AVFrame :=
  { width := 2, height := 2, linesize := 8, format := AV_PIX_FMT_RGBA,
    data := 200, pts := 0, sar := (1, 1) }

/-- The input link of the concrete scenario: 4×4 RGB24. -/
def link_in : AVFilterLink :=
  { w := 4, h := 4, format := AV_PIX_FMT_RGB24, time_base := (1, 25),
    sar := (1, 1), frame_rate := (25, 1) }

/-- An output link before `config_output` has run (only the negotiated
RGB24 format is set). -/
def link_zero : AVFilterLink :=
  { w := 0, h := 0, format := AV_PIX_FMT_RGB24, time_base := (0, 1),
    sar := (0, 1), frame_rate := (0, 1) }

/-- The configured output link of the concrete scenario. -/
def link_out : AVFilterLink := (config_output link_in link_zero).1

/-- The environment of the scenario's single synchronization event: both
source frames present, allocation succeeds at fresh address 300, the
operation and the downstream forward both succeed. -/
def env_ok : Env :=
  { frame0 := frame_in, frame1 := frame_logo, alloc_ok := true,
    fresh_ptr := 300, fresh_linesize := 12, op_ret := 0, filter_ret := 0 }

/-- The same event with the bound operation failing (returning 3). -/
def env_opfail : Env := { env_ok with op_ret := 3 }

/-- The context after successful initialization with offsets (1,1) and the
default selector (embed). -/
def tm_ready : TMBlockContext := (init (fresh_context 1 1 FUNC_EMBED) 0).1

/-- A 4×4 frame whose layout is 8-bit grayscale: neither RGB24 nor RGBA. -/
def frame_gray : AVFrame :=
  { width := 4, height := 4, linesize := 4, format := AV_PIX_FMT_GRAY8,
    data := 7, pts := 0, sar := (1, 1) }

/-- The output buffer `process_frame` builds in the concrete scenario:
geometry of the input link, fresh plane address, properties copied from
the input frame. -/
def out_buf_c : AVFrame :=
  { width := 4, height := 4, linesize := 12, format := AV_PIX_FMT_RGB24,
    data := 300, pts := 0, sar := (1, 1) }

/-! ## Helper lemmas -/

/-- No lifetime step of the filter touches the two pending-frame queues
except teardown, which empties them. -/
theorem step_queues (tm : TMBlockContext) (op : FilterOp)
    (hi : tm.queue_input = []) (hl : tm.queue_logo = []) :
    (step tm op).queue_input = [] ∧ (step tm op).queue_logo = [] := by
  cases op with
  | opInit fsret =>
      simp only [step, init]
      split <;> [skip; split <;> [skip; split]] <;> exact ⟨hi, hl⟩
  | opEvent ol env =>
      simp only [step, process_frame]
      cases h : ff_get_video_buffer ol ol.w ol.h env with
      | none => exact ⟨hi, hl⟩
      | some buf =>
          simp only [draw_frame]
          split <;> exact ⟨hi, hl⟩
  | opUninit =>
      simp [step, uninit, ff_bufqueue_discard_all]

/-- Queue emptiness is preserved along any sequence of lifetime steps. -/
theorem runOps_queues (ops : List FilterOp) : ∀ tm : TMBlockContext,
    tm.queue_input = [] → tm.queue_logo = [] →
    (runOps tm ops).queue_input = [] ∧ (runOps tm ops).queue_logo = [] := by
  induction ops with
  | nil => intro tm hi hl; exact ⟨hi, hl⟩
  | cons op ops ih =>
      intro tm hi hl
      have h := step_queues tm op hi hl
      simpa [runOps, List.foldl_cons] using ih (step tm op) h.1 h.2

/-! ## Claims -/

/-- Claim C1. The claim states that on every synchronization event the
dispatcher is invoked exactly once with the input descriptor built from the
frame of stream 0 and the logo descriptor built from the frame of stream 1.
The code invokes the dispatcher exactly once, but both
`ff_framesync_get_frame` calls pass stream index 0, so the logo descriptor
is built from stream 0's frame as well: on the spec's own concrete
scenario (4×4 RGB24 input, 2×2 RGBA logo, offsets (1,1)) the dispatched
logo descriptor equals the stream-0 descriptor and differs from the
stream-1 descriptor. -/
theorem c1_logo_descriptor_from_stream0 :
    countDispatch (process_frame tm_ready link_out env_ok).trace = 1 ∧
    dispatchInputArgs (process_frame tm_ready link_out env_ok).trace =
      [copy_AVFrame_to_TM_Picture env_ok.frame0] ∧
    dispatchLogoArgs (process_frame tm_ready link_out env_ok).trace =
      [copy_AVFrame_to_TM_Picture env_ok.frame0] ∧
    copy_AVFrame_to_TM_Picture env_ok.frame0 ≠
      copy_AVFrame_to_TM_Picture env_ok.frame1 ∧
    dispatchOffsets (process_frame tm_ready link_out env_ok).trace =
      [(1, 1)] := by
  decide

/-- Claim C2. The claim states that a layout other than RGB24 or RGBA makes
the conversion fail with UnsupportedLayout. In the code the mode expression
`format == RGBA ? TM_RGBA : AV_PIX_FMT_RGB24 ? TM_RGB : -1` parses so that
its second condition is the truthy constant `AV_PIX_FMT_RGB24`: RGBA maps
to `TM_RGBA` and RGB24 to `TM_RGB` as claimed, but a GRAY8 frame (neither
layout) also maps to `TM_RGB`, the `-1` branch is unreachable, and the
`assert(mode != -1)` guarding it can never fire. -/
theorem c2_unsupported_layout_mapped_to_rgb :
    (copy_AVFrame_to_TM_Picture
        { frame_gray with format := AV_PIX_FMT_RGBA }).mode = TM_RGBA ∧
    (copy_AVFrame_to_TM_Picture
        { frame_gray with format := AV_PIX_FMT_RGB24 }).mode = TM_RGB ∧
    frame_gray.format ≠ AV_PIX_FMT_RGB24 ∧
    frame_gray.format ≠ AV_PIX_FMT_RGBA ∧
    (copy_AVFrame_to_TM_Picture frame_gray).mode = TM_RGB ∧
    TM_RGB ≠ -1 ∧
    copy_mode_assert frame_gray := by
  constructor; · decide
  constructor; · decide
  constructor; · decide
  constructor; · decide
  constructor; · decide
  constructor; · decide
  simp [copy_mode_assert]; decide

/-- Claim C3. The claim states that on every terminal path each frame the
event touched is released exactly once, and in particular that the output
frame is not released again after successful forwarding transferred its
ownership downstream. On the all-success path the code forwards the output
buffer through `ff_filter_frame` (one ownership transfer) and then falls
through to the `out:` label, where `av_frame_free(&output_buf)` releases it
a second time: the trace relinquishes the output buffer twice. -/
theorem c3_output_released_after_forward :
    (process_frame tm_ready link_out env_ok).ret = 0 ∧
    countForward (process_frame tm_ready link_out env_ok).trace = 1 ∧
    countRelease BufRole.outputB (process_frame tm_ready link_out env_ok).trace
      = 1 ∧
    outputRelinquishes (process_frame tm_ready link_out env_ok).trace = 2 := by
  decide

/-- Claim C4: when the bound operation returns a nonzero status, that status
is propagated as the event's return value, the output buffer is never
forwarded downstream, and it is released exactly once. -/
theorem c4_op_failure_no_forward (tm : TMBlockContext) (ol : AVFilterLink)
    (env : Env) (halloc : env.alloc_ok = true) (hop : env.op_ret ≠ 0) :
    (process_frame tm ol env).ret = env.op_ret ∧
    countForward (process_frame tm ol env).trace = 0 ∧
    countRelease BufRole.outputB (process_frame tm ol env).trace = 1 := by
  simp [process_frame, ff_get_video_buffer, halloc, draw_frame, hop,
    countForward, countRelease, List.countP, List.countP.go]

/-- Witness for C4 at the concrete scenario with the operation failing with
status 3. -/
theorem c4_op_failure_no_forward_witness :
    env_opfail.alloc_ok = true ∧ env_opfail.op_ret ≠ 0 ∧
    ((process_frame tm_ready link_out env_opfail).ret = env_opfail.op_ret ∧
     countForward (process_frame tm_ready link_out env_opfail).trace = 0 ∧
     countRelease BufRole.outputB
       (process_frame tm_ready link_out env_opfail).trace = 1) :=
  ⟨by decide, by decide,
   c4_op_failure_no_forward tm_ready link_out env_opfail (by decide)
     (by decide)⟩

/-- Claim C5: once the output link has been configured from the input link,
the output buffer allocated for any event has the input link's width and
height, whatever the offsets in the context, and differs from any logo-link
geometry that differs from the input's. -/
theorem c5_output_geometry (il ll ol0 : AVFilterLink) (tm : TMBlockContext)
    (env : Env) (b : AVFrame)
    (h : (process_frame tm (config_output il ol0).1 env).output_buf = some b)
    (hlw : ll.w ≠ il.w) (hlh : ll.h ≠ il.h) :
    b.width = il.w ∧ b.height = il.h ∧ b.width ≠ ll.w ∧ b.height ≠ ll.h := by
  cases halloc : env.alloc_ok with
  | false =>
      simp [process_frame, ff_get_video_buffer, halloc] at h
  | true =>
      by_cases hop : env.op_ret = 0 <;>
        simp [process_frame, ff_get_video_buffer, halloc, config_output,
          av_frame_copy_props, draw_frame, hop] at h <;>
        simp [← h, config_output, Ne.symm hlw, Ne.symm hlh]

/-- The logo link of the concrete scenario: 2×2 RGBA. -/
def link_logo : AVFilterLink :=
  { w := 2, h := 2, format := AV_PIX_FMT_RGBA, time_base := (1, 25),
    sar := (1, 1), frame_rate := (25, 1) }

/-- Witness for C5 at the concrete scenario: the allocated 4×4 output buffer
matches the input link's geometry and not the 2×2 logo link's. -/
theorem c5_output_geometry_witness :
    (process_frame tm_ready (config_output link_in link_zero).1
        env_ok).output_buf = some out_buf_c ∧
    link_logo.w ≠ link_in.w ∧ link_logo.h ≠ link_in.h ∧
    (out_buf_c.width = link_in.w ∧ out_buf_c.height = link_in.h ∧
     out_buf_c.width ≠ link_logo.w ∧ out_buf_c.height ≠ link_logo.h) :=
  ⟨by decide, by decide, by decide,
   c5_output_geometry link_in link_logo link_zero tm_ready env_ok out_buf_c
     (by decide) (by decide) (by decide)⟩

/-- Claim C6: when the selector holds a value outside
{FUNC_EMBED, FUNC_PRE, FUNC_POST}, initialization returns the nonzero
failure value 1, binds no operation function, and — since the framesync
event callback is never registered — no synchronization event is ever
processed. -/
theorem c6_invalid_selector (ox oy ft fsret : Int) (ol : AVFilterLink)
    (envs : List Env)
    (h0 : ft ≠ FUNC_EMBED) (h1 : ft ≠ FUNC_PRE) (h2 : ft ≠ FUNC_POST) :
    (init (fresh_context ox oy ft) fsret).2 = 1 ∧
    (init (fresh_context ox oy ft) fsret).2 ≠ 0 ∧
    (init (fresh_context ox oy ft) fsret).1.func = none ∧
    framesync_run ol (init (fresh_context ox oy ft) fsret).1 envs = [] := by
  have hinit : init (fresh_context ox oy ft) fsret = (fresh_context ox oy ft, 1) := by
    simp [init, fresh_context, h0, h1, h2]
  refine ⟨by rw [hinit], by rw [hinit]; simp, ?_, ?_⟩
  · rw [hinit]; simp [fresh_context]
  rw [hinit]
  cases envs <;> simp [framesync_run, fresh_context]

/-- Witness for C6 with the out-of-range selector value 3 (`NB_FUNC`). -/
theorem c6_invalid_selector_witness :
    ((3 : Int) ≠ FUNC_EMBED ∧ (3 : Int) ≠ FUNC_PRE ∧ (3 : Int) ≠ FUNC_POST) ∧
    ((init (fresh_context 1 1 3) 0).2 = 1 ∧
     (init (fresh_context 1 1 3) 0).2 ≠ 0 ∧
     (init (fresh_context 1 1 3) 0).1.func = none ∧
     framesync_run link_in (init (fresh_context 1 1 3) 0).1 [env_ok] = []) :=
  ⟨⟨by decide, by decide, by decide⟩,
   c6_invalid_selector 1 1 3 0 link_in [env_ok] (by decide) (by decide)
     (by decide)⟩

/-- Claim C7: on any event whose input frame matches the configured input
link geometry, the freshly allocated output buffer is sized to the input
frame's width and height, carries the input frame's timestamp and
sample-aspect-ratio (copied by `av_frame_copy_props`), keeps the fresh
plane address (so its pixel data is not taken from either source frame's
plane), and the output link's frame rate was copied from the input link by
`config_output`. -/
theorem c7_output_alloc_props (il ol0 : AVFilterLink) (tm : TMBlockContext)
    (env : Env) (b : AVFrame)
    (h : (process_frame tm (config_output il ol0).1 env).output_buf = some b)
    (hw : env.frame0.width = il.w) (hh : env.frame0.height = il.h)
    (hp0 : env.fresh_ptr ≠ env.frame0.data)
    (hp1 : env.fresh_ptr ≠ env.frame1.data) :
    b.width = env.frame0.width ∧ b.height = env.frame0.height ∧
    b.pts = env.frame0.pts ∧ b.sar = env.frame0.sar ∧
    b.data = env.fresh_ptr ∧
    b.data ≠ env.frame0.data ∧ b.data ≠ env.frame1.data ∧
    (config_output il ol0).1.frame_rate = il.frame_rate := by
  cases halloc : env.alloc_ok with
  | false =>
      simp [process_frame, ff_get_video_buffer, halloc] at h
  | true =>
      by_cases hop : env.op_ret = 0 <;>
        simp [process_frame, ff_get_video_buffer, halloc, config_output,
          av_frame_copy_props, draw_frame, framesync_get_frame, hop] at h <;>
        simp [← h, config_output, framesync_get_frame, hw, hh, hp0, hp1]

/-- Witness for C7 at the concrete scenario: the output buffer is 4×4 like
the input frame, carries its timestamp 0 and SAR 1:1, and its plane address
300 is neither source plane (100, 200). -/
theorem c7_output_alloc_props_witness :
    (process_frame tm_ready (config_output link_in link_zero).1
        env_ok).output_buf = some out_buf_c ∧
    env_ok.frame0.width = link_in.w ∧ env_ok.frame0.height = link_in.h ∧
    env_ok.fresh_ptr ≠ env_ok.frame0.data ∧
    env_ok.fresh_ptr ≠ env_ok.frame1.data ∧
    (out_buf_c.width = env_ok.frame0.width ∧
     out_buf_c.height = env_ok.frame0.height ∧
     out_buf_c.pts = env_ok.frame0.pts ∧ out_buf_c.sar = env_ok.frame0.sar ∧
     out_buf_c.data = env_ok.fresh_ptr ∧
     out_buf_c.data ≠ env_ok.frame0.data ∧
     out_buf_c.data ≠ env_ok.frame1.data ∧
     (config_output link_in link_zero).1.frame_rate = link_in.frame_rate) :=
  ⟨by decide, by decide, by decide, by decide, by decide,
   c7_output_alloc_props link_in link_zero tm_ready env_ok out_buf_c
     (by decide) (by decide) (by decide) (by decide) (by decide)⟩

/-- Claim C8: each of the three selector values makes initialization bind
its own distinct operation function — `FUNC_EMBED` binds `TM_embed`,
`FUNC_PRE` binds `TM_pre`, `FUNC_POST` binds `TM_post` — propagating
`ff_framesync_configure`'s status (success when it succeeds), the three
bindings are pairwise distinct, and the declared default of the "func"
option is `FUNC_EMBED`. -/
theorem c8_selector_bindings (ox oy fsret : Int) :
    (init (fresh_context ox oy FUNC_EMBED) fsret).1.func =
      some TMFunc.TM_embed ∧
    (init (fresh_context ox oy FUNC_EMBED) fsret).2 = fsret ∧
    (init (fresh_context ox oy FUNC_EMBED) fsret).1.fs_on_event = true ∧
    (init (fresh_context ox oy FUNC_PRE) fsret).1.func = some TMFunc.TM_pre ∧
    (init (fresh_context ox oy FUNC_PRE) fsret).2 = fsret ∧
    (init (fresh_context ox oy FUNC_PRE) fsret).1.fs_on_event = true ∧
    (init (fresh_context ox oy FUNC_POST) fsret).1.func =
      some TMFunc.TM_post ∧
    (init (fresh_context ox oy FUNC_POST) fsret).2 = fsret ∧
    (init (fresh_context ox oy FUNC_POST) fsret).1.fs_on_event = true ∧
    TMFunc.TM_embed ≠ TMFunc.TM_pre ∧
    TMFunc.TM_pre ≠ TMFunc.TM_post ∧
    TMFunc.TM_embed ≠ TMFunc.TM_post ∧
    func_option_default = FUNC_EMBED := by
  refine ⟨?_, ?_, ?_, ?_, ?_, ?_, ?_, ?_, ?_, by decide, by decide, by decide,
    by decide⟩ <;>
    simp [init, fresh_context, FUNC_EMBED, FUNC_PRE, FUNC_POST]

/-- Claim C9: teardown empties both pending-frame queues, releases exactly
the frames that were queued at that moment, and a second teardown right
after releases nothing and changes nothing. -/
theorem c9_uninit_idempotent (tm : TMBlockContext) :
    (uninit tm).1.queue_input = [] ∧
    (uninit tm).1.queue_logo = [] ∧
    (uninit tm).2 = tm.queue_input ++ tm.queue_logo ∧
    (uninit (uninit tm).1).2 = [] ∧
    (uninit (uninit tm).1).1 = (uninit tm).1 := by
  simp [uninit, ff_bufqueue_discard_all]

/-- Claim C10: from a freshly created context, no sequence of lifetime
operations (initialization, synchronization events, teardown) ever puts a
frame into `queue_input` or `queue_logo` — they are empty in every
reachable state — so a teardown applied to any reachable state releases no
frame from them. -/
theorem c10_queues_always_empty (ox oy ft : Int) (ops : List FilterOp) :
    (runOps (fresh_context ox oy ft) ops).queue_input = [] ∧
    (runOps (fresh_context ox oy ft) ops).queue_logo = [] ∧
    (uninit (runOps (fresh_context ox oy ft) ops)).2 = [] := by
  have h := runOps_queues ops (fresh_context ox oy ft) rfl rfl
  exact ⟨h.1, h.2, by simp [uninit, ff_bufqueue_discard_all, h.1, h.2]⟩
